import Mathlib

/-!
Verification development for the rescuetime-mcp repository: a shallow
embedding of the RescueTime API client (client.py) and the FastMCP tool
facade (server.py), with theorems checking the specification's claims
against the embedded code.

Conventions of the embedding:
* JSON numbers and Python floats are modelled by exact rationals.
* Python dicts with string keys are modelled by association lists whose
  insertion replaces the value in place, as dict assignment does.
* The HTTP transport is modelled by a function from the outgoing request
  to an outcome (a response or a connection failure); every client
  operation returns, next to its result, the list of requests it issued,
  which makes request counts and "no network call" claims statable.
-/

namespace RescueTime

/-- Model of a JSON value as returned by the remote API (numbers as exact
rationals standing in for Python numerics). -/
inductive JValue where
  | jnull : JValue
  | jbool : Bool → JValue
  | jnum : ℚ → JValue
  | jstr : String → JValue
  | jarr : List JValue → JValue
  | jobj : List (String × JValue) → JValue

/-- Lookup in an association-list model of a Python dict (string values). -/
def lookupA : List (String × String) → String → Option String
  | [], _ => none
  | (a, b) :: t, k => if a = k then some b else lookupA t k

/-- Insertion into an association-list model of a Python dict: replaces the
value in place when the key is present, appends otherwise, matching dict
assignment. -/
def insertA (k v : String) : List (String × String) → List (String × String)
  | [] => [(k, v)]
  | (a, b) :: t => if a = k then (k, v) :: t else (a, b) :: insertA k v t

/-- Model of Python dict.update: fold the right dict's entries into the left. -/
def updateA (l r : List (String × String)) : List (String × String) :=
  r.foldl (fun acc kv => insertA kv.1 kv.2 acc) l

/-- HTTP method of the request primitive; per the client only GET and POST
reach the transport. -/
inductive Method where
  | GET : Method
  | POST : Method
deriving DecidableEq

/-- Outgoing HTTP request as built by the request primitive: endpoint,
method, query-string parameters and optional form-encoded body. -/
structure OutRequest where
  endpoint : String
  method : Method
  query : List (String × String)
  body : Option (List (String × String))
deriving DecidableEq

/-- Response delivered by the transport when the connection succeeds:
status code, declared content type, raw text and parsed JSON body. -/
structure HttpResponse where
  status : Nat
  contentType : String
  text : String
  json : JValue

/-- Outcome of one transport round trip: an HTTP response (any status), or a
transport-level failure (DNS, timeout, connection reset) with a message. -/
inductive TransportResult where
  | ok : HttpResponse → TransportResult
  | err : String → TransportResult

/-- Model of the typed RescueTimeAPIError (client.py 132-143): message,
optional numeric status and optional response-body payload. -/
structure APIError where
  message : String
  status_code : Option Nat
  response_data : Option (List (String × String))

/-- Lowercasing of a string, character by character (model of str.lower). -/
def lowerString (s : String) : String := String.mk (s.data.map Char.toLower)

/-- Prefix test on character lists. -/
def listPrefixOf : List Char → List Char → Bool
  | [], _ => true
  | _ :: _, [] => false
  | a :: as, b :: bs => a = b && listPrefixOf as bs

/-- Model of Python substring containment (the in operator on strings). -/
def containsSub (hay needle : String) : Bool :=
  (List.range (hay.data.length + 1)).any (fun i => listPrefixOf needle.data (hay.data.drop i))

/-- Request value built by RescueTimeClient._make_request (client.py
201-220): the key and format parameters are inserted into the caller's
params; a GET sends them as the query string with no body, a POST merges
the caller's body fields into the form payload (dict.update, so the body
fields land after - and on name collision override - the injected pair)
and sends no query string. -/
def builtRequest (apiKey endpoint : String) (method : Method)
    (params : List (String × String))
    (data : Option (List (String × String))) : OutRequest :=
  let params1 := insertA "format" "json" (insertA "key" apiKey params)
  match method with
  | Method.GET =>
      { endpoint := endpoint, method := Method.GET, query := params1, body := none }
  | Method.POST =>
      let payload :=
        match data with
        | some d => if d.isEmpty then params1 else updateA params1 d
        | none => params1
      { endpoint := endpoint, method := Method.POST, query := [], body := some payload }

/-- Model of RescueTimeClient._make_request (client.py 180-247): builds the
single outgoing request, hands it to the transport once, and translates
the outcome. A 2xx response is parsed as JSON when the declared content
type contains application/json and wrapped as a response/content_type
object otherwise; a non-2xx response becomes a typed error carrying the
status and raw body; a transport failure becomes a typed error with no
status. The first component records every request issued (exactly one). -/
def makeRequest (apiKey endpoint : String) (method : Method)
    (params : List (String × String))
    (data : Option (List (String × String)))
    (respond : OutRequest → TransportResult) :
    List OutRequest × Except APIError JValue :=
  let req := builtRequest apiKey endpoint method params data
  let res : Except APIError JValue :=
    match respond req with
    | TransportResult.ok r =>
        if 200 ≤ r.status ∧ r.status < 300 then
          let ct := lowerString r.contentType
          if containsSub ct "application/json" then Except.ok r.json
          else Except.ok (JValue.jobj
            [("response", JValue.jstr r.text), ("content_type", JValue.jstr ct)])
        else
          Except.error
            { message := "HTTP " ++ toString r.status ++ " error: " ++ r.text,
              status_code := some r.status,
              response_data := some [("response", r.text)] }
    | TransportResult.err m =>
        Except.error
          { message := "Request error: " ++ m, status_code := none, response_data := none }
  ([req], res)

theorem lookupA_insertA_self (k v : String) (l : List (String × String)) :
    lookupA (insertA k v l) k = some v := by
  induction l with
  | nil => simp [insertA, lookupA]
  | cons h t ih =>
      by_cases hk : h.1 = k
      · simp [insertA, hk, lookupA]
      · simp [insertA, hk, lookupA, ih]

theorem lookupA_insertA_ne (k v a : String) (l : List (String × String))
    (h : k ≠ a) : lookupA (insertA k v l) a = lookupA l a := by
  induction l with
  | nil => simp [insertA, lookupA, h]
  | cons hd t ih =>
      by_cases hk : hd.1 = k
      · simp [insertA, hk, lookupA, h, Ne.symm h]
      · simp [insertA, hk, lookupA, ih]

theorem lookupA_insertA_isSome (k v a : String) (l : List (String × String))
    (h : (lookupA l a).isSome) : (lookupA (insertA k v l) a).isSome := by
  by_cases hk : k = a
  · subst hk; simp [lookupA_insertA_self]
  · rwa [lookupA_insertA_ne k v a l hk]

theorem lookupA_updateA_isSome (a : String) (r l : List (String × String))
    (h : (lookupA l a).isSome) : (lookupA (updateA l r) a).isSome := by
  induction r generalizing l with
  | nil => simpa [updateA]
  | cons hd t ih =>
      have step : (lookupA (insertA hd.1 hd.2 l) a).isSome :=
        lookupA_insertA_isSome hd.1 hd.2 a l h
      simpa [updateA, List.foldl_cons] using ih (insertA hd.1 hd.2 l) step

theorem lookupA_updateA_of_absent (a : String) (r l : List (String × String))
    (h : lookupA r a = none) : lookupA (updateA l r) a = lookupA l a := by
  induction r generalizing l with
  | nil => simp [updateA]
  | cons hd t ih =>
      have h1 : ¬hd.1 = a := by
        intro hc
        simp [lookupA, hc] at h
      have h2 : lookupA t a = none := by
        simpa [lookupA, h1] using h
      have := ih (insertA hd.1 hd.2 l) h2
      rw [updateA, List.foldl_cons]
      rw [updateA] at this
      rw [this, lookupA_insertA_ne hd.1 hd.2 a l h1]

/-- C1: every call through the request primitive issues exactly one request
(no retry); a response with a non-2xx status yields the typed error whose
status_code is that numeric status and whose response_data carries the raw
body; a transport failure yields the typed error with status_code absent. -/
theorem C1_single_attempt_error_translation (apiKey endpoint : String)
    (method : Method) (params : List (String × String))
    (data : Option (List (String × String)))
    (respond : OutRequest → TransportResult) :
    (makeRequest apiKey endpoint method params data respond).1 =
      [builtRequest apiKey endpoint method params data] ∧
    (∀ r, respond (builtRequest apiKey endpoint method params data) = TransportResult.ok r →
      ¬(200 ≤ r.status ∧ r.status < 300) →
      (makeRequest apiKey endpoint method params data respond).2 =
        Except.error
          { message := "HTTP " ++ toString r.status ++ " error: " ++ r.text,
            status_code := some r.status,
            response_data := some [("response", r.text)] }) ∧
    (∀ m, respond (builtRequest apiKey endpoint method params data) = TransportResult.err m →
      (makeRequest apiKey endpoint method params data respond).2 =
        Except.error
          { message := "Request error: " ++ m, status_code := none, response_data := none }) := by
  refine ⟨rfl, ?_, ?_⟩
  · intro r hr hs
    simp [makeRequest, hr, hs]
  · intro m hm
    simp [makeRequest, hm]

theorem C1_single_attempt_error_translation_witness :
    (makeRequest "k" "data" Method.GET [] none
        (fun _ => TransportResult.ok
          { status := 500, contentType := "text/plain", text := "boom", json := JValue.jnull })).2 =
      Except.error
        { message := "HTTP 500 error: boom", status_code := some 500,
          response_data := some [("response", "boom")] } ∧
    (makeRequest "k" "data" Method.GET [] none (fun _ => TransportResult.err "timeout")).2 =
      Except.error
        { message := "Request error: timeout", status_code := none, response_data := none } := by
  constructor
  · exact (C1_single_attempt_error_translation "k" "data" Method.GET [] none
      (fun _ => TransportResult.ok
        { status := 500, contentType := "text/plain", text := "boom", json := JValue.jnull })).2.1
      _ rfl (by decide)
  · exact (C1_single_attempt_error_translation "k" "data" Method.GET [] none
      (fun _ => TransportResult.err "timeout")).2.2 "timeout" rfl

/-- C2 counterexample: on a POST whose caller-supplied body fields bind the
name key, the outgoing form body carries the caller's value, not the
authentication key, because dict.update runs after the injection; so the
outgoing request does not always contain the authentication key parameter. -/
theorem C2_counterexample :
    builtRequest "secret" "alerts_feed" Method.POST [] (some [("key", "evil")]) =
      { endpoint := "alerts_feed", method := Method.POST, query := [],
        body := some [("key", "evil"), ("format", "json")] } ∧
    "evil" ≠ "secret" := by
  exact ⟨rfl, by decide⟩

/-- C2 (amended): on GET the query string always carries the authentication
key and the fixed json format selector and there is no body; on POST there
is no query string and the form body always contains parameters named key
and format, merged with the caller's body fields, whose values are the
injected authentication key and json except when the caller's body fields
themselves bind those names (caller body fields take precedence on
collision). -/
theorem C2_fixed_params_always_present (apiKey endpoint : String)
    (method : Method) (params : List (String × String))
    (data : Option (List (String × String))) :
    (method = Method.GET →
      lookupA (builtRequest apiKey endpoint method params data).query "key" = some apiKey ∧
      lookupA (builtRequest apiKey endpoint method params data).query "format" = some "json" ∧
      (builtRequest apiKey endpoint method params data).body = none) ∧
    (method = Method.POST →
      (builtRequest apiKey endpoint method params data).query = [] ∧
      ∃ b, (builtRequest apiKey endpoint method params data).body = some b ∧
        (lookupA b "key").isSome ∧
        (lookupA b "format").isSome ∧
        ((∀ d, data = some d → lookupA d "key" = none) → lookupA b "key" = some apiKey) ∧
        ((∀ d, data = some d → lookupA d "format" = none) →
          lookupA b "format" = some "json")) := by
  have hkey : lookupA (insertA "format" "json" (insertA "key" apiKey params)) "key" =
      some apiKey := by
    rw [lookupA_insertA_ne "format" "json" "key" _ (by decide)]
    exact lookupA_insertA_self "key" apiKey params
  have hfmt : lookupA (insertA "format" "json" (insertA "key" apiKey params)) "format" =
      some "json" := lookupA_insertA_self "format" "json" _
  constructor
  · rintro rfl
    exact ⟨hkey, hfmt, rfl⟩
  · rintro rfl
    refine ⟨rfl, ?_⟩
    cases data with
    | none =>
        refine ⟨_, rfl, ?_, ?_, ?_, ?_⟩
        · simp [builtRequest, hkey]
        · simp [builtRequest, hfmt]
        · intro _; simpa [builtRequest] using hkey
        · intro _; simpa [builtRequest] using hfmt
    | some d =>
        by_cases hd : d.isEmpty
        · refine ⟨_, rfl, ?_, ?_, ?_, ?_⟩
          · simp [builtRequest, hd, hkey]
          · simp [builtRequest, hd, hfmt]
          · intro _; simpa [builtRequest, hd] using hkey
          · intro _; simpa [builtRequest, hd] using hfmt
        · refine ⟨updateA (insertA "format" "json" (insertA "key" apiKey params)) d,
            by simp [builtRequest, hd], ?_, ?_, ?_, ?_⟩
          · exact lookupA_updateA_isSome "key" d _ (by simp [hkey])
          · exact lookupA_updateA_isSome "format" d _ (by simp [hfmt])
          · intro habs
            rw [lookupA_updateA_of_absent "key" d _ (habs d rfl)]
            exact hkey
          · intro habs
            rw [lookupA_updateA_of_absent "format" d _ (habs d rfl)]
            exact hfmt

theorem C2_fixed_params_always_present_witness :
    (lookupA (builtRequest "k7" "data" Method.GET [("perspective", "rank")] none).query "key" =
      some "k7") ∧
    ∃ b, (builtRequest "k7" "start_focustime" Method.POST [] (some [("duration", "30")])).body =
        some b ∧ lookupA b "key" = some "k7" ∧ lookupA b "format" = some "json" := by
  constructor
  · exact ((C2_fixed_params_always_present "k7" "data" Method.GET
      [("perspective", "rank")] none).1 rfl).1
  · obtain ⟨-, b, hb, -, -, hkv, hfv⟩ :=
      (C2_fixed_params_always_present "k7" "start_focustime" Method.POST []
        (some [("duration", "30")])).2 rfl
    exact ⟨b, hb, hkv (by intro d hd; cases hd; decide), hfv (by intro d hd; cases hd; decide)⟩

/-- Lookup in an association list with JSON values (model of a parsed dict). -/
def lookupJ : List (String × JValue) → String → Option JValue
  | [], _ => none
  | (a, b) :: t, k => if a = k then some b else lookupJ t k

/-- Dict field access: some value when the JSON value is an object containing
the key (model of isinstance(result, dict) and key in result). -/
def jGet : JValue → String → Option JValue
  | JValue.jobj fields, k => lookupJ fields k
  | _, _ => none

/-- Python truthiness of a JSON value: null, false, zero, the empty string
and empty containers are falsy. -/
def jTruthy : JValue → Bool
  | JValue.jnull => false
  | JValue.jbool b => b
  | JValue.jnum q => decide (q ≠ 0)
  | JValue.jstr s => !s.isEmpty
  | JValue.jarr l => !l.isEmpty
  | JValue.jobj l => !l.isEmpty

/-- Whitespace stripped from both ends of a character list. -/
def trimChars (cs : List Char) : List Char :=
  ((cs.dropWhile Char.isWhitespace).reverse.dropWhile Char.isWhitespace).reverse

/-- Value of a run of decimal digits; none when the run is empty or a
non-digit appears. -/
def digitsValAux : List Char → Nat → Option Nat
  | [], acc => some acc
  | c :: t, acc => if c.isDigit then digitsValAux t (acc * 10 + (c.toNat - 48)) else none

def digitsVal (cs : List Char) : Option Nat :=
  if cs.isEmpty then none else digitsValAux cs 0

/-- Model of Python int() on a string: optional surrounding whitespace, an
optional sign, then a nonempty run of decimal digits (digit-group
underscores are not modelled); none when the string is not coercible. -/
def pythonInt (s : String) : Option Int :=
  match trimChars s.data with
  | '-' :: rest => (digitsVal rest).map (fun n => -(n : Int))
  | '+' :: rest => (digitsVal rest).map (fun n => (n : Int))
  | cs => (digitsVal cs).map (fun n => (n : Int))

/-- Duration argument as received by the start_focus_session tool: an
integer, a string to coerce, or omitted. -/
inductive DurationArg where
  | int : Int → DurationArg
  | str : String → DurationArg
  | omitted : DurationArg

def durationMsg5 (d : Int) : String :=
  "Duration must be a multiple of 5 minutes or -1 for end of day, got: " ++ toString d

def durationMsgPos (d : Int) : String :=
  "Duration must be positive, -1 for end of day, or not specified for default (30), got: " ++
    toString d

/-- Duration constraints of the start_focus_session tool (server.py
340-344); Lean's % on Int agrees with Python's on the positive modulus 5. -/
def checkDurationInt (d : Int) : Except String Int :=
  if d ≠ -1 ∧ d % 5 ≠ 0 then Except.error (durationMsg5 d)
  else if d < -1 ∨ d = 0 then Except.error (durationMsgPos d)
  else Except.ok d

/-- Coercion and validation of the duration argument (server.py 331-344). -/
def validateDuration : DurationArg → Except String (Option Int)
  | DurationArg.omitted => Except.ok none
  | DurationArg.int d => (checkDurationInt d).map some
  | DurationArg.str s =>
      match pythonInt s with
      | none => Except.error ("Duration must be a valid integer, got: " ++ s)
      | some d => (checkDurationInt d).map some

/-- Model of RescueTimeClient.start_focus_session (client.py 368-395):
applies the default duration 30 when none was given, posts the duration as
a form field, and normalizes a response/content_type wrapper or a falsy
result into a started envelope. -/
def clientStartFocusSession (apiKey : String) (duration : Option Int)
    (respond : OutRequest → TransportResult) :
    List OutRequest × Except APIError JValue :=
  let d := duration.getD 30
  let (reqs, res) :=
    makeRequest apiKey "start_focustime" Method.POST [] (some [("duration", toString d)]) respond
  (reqs,
    match res with
    | Except.ok v =>
        match jGet v "response" with
        | some msg =>
            Except.ok (JValue.jobj [("status", JValue.jstr "started"),
              ("duration", JValue.jnum (d : ℚ)), ("message", msg)])
        | none =>
            if jTruthy v then Except.ok v
            else Except.ok (JValue.jobj [("status", JValue.jstr "started"),
              ("duration", JValue.jnum (d : ℚ)),
              ("message", JValue.jstr "Focus session started successfully")])
    | Except.error e => Except.error e)

/-- Model of the start_focus_session tool (server.py 319-352): coerces and
validates the duration before delegating to the client; a validation
failure issues no request, and every raised message is re-wrapped with the
tool prefix. -/
def startFocusSessionTool (apiKey : String) (arg : DurationArg)
    (respond : OutRequest → TransportResult) :
    List OutRequest × Except String JValue :=
  match validateDuration arg with
  | Except.error m => ([], Except.error ("Failed to start focus session: " ++ m))
  | Except.ok d =>
      let (reqs, res) := clientStartFocusSession apiKey d respond
      (reqs,
        match res with
        | Except.ok v => Except.ok v
        | Except.error e => Except.error ("Failed to start focus session: " ++ e.message))

/-- Structured response of RescueTimeClient.dismiss_alert (client.py
307-328). -/
structure DismissResponse where
  status : String
  alert_id : Int
  errorMsg : String
  message : String
  api_limitation : Bool
deriving DecidableEq

/-- Model of RescueTimeClient.dismiss_alert (client.py 307-328): a pure
function of the alert id; the first component records the requests issued
(none - the transport and the shared connection handle are never consulted,
which is why no respond argument is even needed). -/
def dismissAlert (alert_id : Int) : List OutRequest × DismissResponse :=
  ([],
    { status := "unsupported",
      alert_id := alert_id,
      errorMsg := "Alert dismissal is not supported by the RescueTime API",
      message := "The RescueTime API only supports reading alerts, not dismissing them. Please use the RescueTime web interface to dismiss alerts.",
      api_limitation := true })

/-- C3: the start_focus_session tool rejects duration 0 and every positive
non-multiple of 5 before any request is issued, delegates for -1, for every
strictly positive multiple of 5 and when the duration is omitted (the
client then defaults to 30), and coerces string durations, rejecting
non-coercible ones with a descriptive message. -/
theorem C3_duration_validation (apiKey : String)
    (respond : OutRequest → TransportResult) :
    (startFocusSessionTool apiKey (DurationArg.int 0) respond =
      ([], Except.error ("Failed to start focus session: " ++ durationMsgPos 0))) ∧
    (∀ d : Int, 0 < d → d % 5 ≠ 0 →
      startFocusSessionTool apiKey (DurationArg.int d) respond =
        ([], Except.error ("Failed to start focus session: " ++ durationMsg5 d))) ∧
    (∀ d : Int, d = -1 ∨ (0 < d ∧ d % 5 = 0) →
      (startFocusSessionTool apiKey (DurationArg.int d) respond).1 =
        [builtRequest apiKey "start_focustime" Method.POST []
          (some [("duration", toString d)])]) ∧
    ((startFocusSessionTool apiKey DurationArg.omitted respond).1 =
      [builtRequest apiKey "start_focustime" Method.POST [] (some [("duration", "30")])]) ∧
    (∀ s : String, ∀ d : Int, pythonInt s = some d →
      startFocusSessionTool apiKey (DurationArg.str s) respond =
        startFocusSessionTool apiKey (DurationArg.int d) respond) ∧
    (∀ s : String, pythonInt s = none →
      startFocusSessionTool apiKey (DurationArg.str s) respond =
        ([], Except.error
          ("Failed to start focus session: " ++ ("Duration must be a valid integer, got: " ++ s)))) := by
  refine ⟨rfl, ?_, ?_, rfl, ?_, ?_⟩
  · intro d h1 h2
    have hne : d ≠ -1 := by omega
    simp [startFocusSessionTool, validateDuration, checkDurationInt, hne, h2, Except.map]
  · intro d hd
    rcases hd with rfl | ⟨h1, h5⟩
    · rfl
    · have hne1 : ¬(d < -1) := by omega
      have hne0 : ¬(d = 0) := by omega
      simp [startFocusSessionTool, validateDuration, checkDurationInt, h5, hne1, hne0,
        Except.map, clientStartFocusSession, makeRequest]
  · intro s d h
    simp [startFocusSessionTool, validateDuration, h]
  · intro s h
    simp [startFocusSessionTool, validateDuration, h]

theorem C3_duration_validation_witness :
    (startFocusSessionTool "k" (DurationArg.int 7) (fun _ => TransportResult.err "x") =
      ([], Except.error ("Failed to start focus session: " ++ durationMsg5 7))) ∧
    ((startFocusSessionTool "k" (DurationArg.int (-1)) (fun _ => TransportResult.err "x")).1 =
      [builtRequest "k" "start_focustime" Method.POST [] (some [("duration", "-1")])]) ∧
    ((startFocusSessionTool "k" (DurationArg.int 10) (fun _ => TransportResult.err "x")).1 =
      [builtRequest "k" "start_focustime" Method.POST [] (some [("duration", "10")])]) ∧
    (startFocusSessionTool "k" (DurationArg.str " 15 ") (fun _ => TransportResult.err "x") =
      startFocusSessionTool "k" (DurationArg.int 15) (fun _ => TransportResult.err "x")) ∧
    (startFocusSessionTool "k" (DurationArg.str "abc") (fun _ => TransportResult.err "x") =
      ([], Except.error
        ("Failed to start focus session: " ++ ("Duration must be a valid integer, got: " ++ "abc")))) := by
  have h := C3_duration_validation "k" (fun _ => TransportResult.err "x")
  refine ⟨h.2.1 7 (by decide) (by decide), h.2.2.1 (-1) (Or.inl rfl), ?_, ?_, ?_⟩
  · have := h.2.2.1 10 (Or.inr ⟨by decide, by decide⟩)
    simpa using this
  · exact h.2.2.2.2.1 " 15 " 15 (by decide)
  · simpa using h.2.2.2.2.2 "abc" (by decide)

/-- C6: for every alert id, dismiss_alert issues no request at all (the
transport is never consulted) and returns the structured unsupported
response echoing the given id. -/
theorem C6_dismiss_alert_offline (alert_id : Int) :
    (dismissAlert alert_id).1 = [] ∧
    (dismissAlert alert_id).2.status = "unsupported" ∧
    (dismissAlert alert_id).2.alert_id = alert_id ∧
    (dismissAlert alert_id).2.api_limitation = true := by
  exact ⟨rfl, rfl, rfl, rfl⟩

/-- Focus-session status response (client.py 405-435) as a dict with
optional keys: the non-empty branch carries total_sessions, the 404 branch
carries a message instead. -/
structure FocusStatus where
  active : Bool
  latest_session : Option JValue
  total_sessions : Option Nat
  message : Option String

/-- Model of RescueTimeClient.get_focus_session_status (client.py 405-435):
queries the focustime_started_feed endpoint, treats a non-empty list result
as an active session (first element, count), any other result as inactive,
turns a 404 typed error into an inactive response, and re-raises every
other typed error. -/
def getFocusSessionStatus (apiKey : String)
    (respond : OutRequest → TransportResult) :
    List OutRequest × Except APIError FocusStatus :=
  let (reqs, res) := makeRequest apiKey "focustime_started_feed" Method.GET [] none respond
  (reqs,
    match res with
    | Except.ok v =>
        match v with
        | JValue.jarr (x :: xs) =>
            Except.ok
              { active := true, latest_session := some x,
                total_sessions := some (x :: xs).length, message := none }
        | _ =>
            Except.ok
              { active := false, latest_session := none,
                total_sessions := some 0, message := none }
    | Except.error e =>
        if e.status_code = some 404 then
          Except.ok
            { active := false, latest_session := none, total_sessions := none,
              message := some "No focus session data available" }
        else Except.error e)

/-- Model of RescueTimeClient.get_daily_summary_feed (client.py 262-274): an
optional parameter map (dropping unset fields is the caller's concern) sent
as a GET to the daily_summary_feed endpoint. -/
def getDailySummaryFeed (apiKey : String)
    (request : Option (List (String × String)))
    (respond : OutRequest → TransportResult) :
    List OutRequest × Except APIError JValue :=
  makeRequest apiKey "daily_summary_feed" Method.GET (request.getD []) none respond

/-- Model of RescueTimeClient.health_check (client.py 449-461): one daily
summary read; any raised error is swallowed into false. -/
def clientHealthCheck (apiKey : String)
    (respond : OutRequest → TransportResult) : List OutRequest × Bool :=
  let (reqs, res) := getDailySummaryFeed apiKey none respond
  (reqs,
    match res with
    | Except.ok _ => true
    | Except.error _ => false)

/-- Health response of the health_check tool (server.py 424-449). -/
structure HealthResult where
  healthy : Bool
  timestamp : String
  api_key_valid : Bool
deriving DecidableEq

/-- Model of the health_check tool (server.py 424-449): reports the boolean
client check with a timestamp; since the client check is total, the catch
branch that would report an error message is unreachable and the tool never
raises. -/
def healthCheckTool (apiKey : String)
    (respond : OutRequest → TransportResult) (now : String) :
    List OutRequest × HealthResult :=
  let (reqs, ok) := clientHealthCheck apiKey respond
  (reqs, { healthy := ok, timestamp := now, api_key_valid := ok })

/-- C7: the focus-session status operation maps a non-empty list result to
an active response carrying the first element and the count, maps an empty
list, a non-list result, and a 404 typed error to an inactive response with
no latest session, and propagates every typed error whose status code is
not 404 (a transport error has no status code, hence propagates). -/
theorem C7_focus_session_status_cases (apiKey : String)
    (respond : OutRequest → TransportResult) :
    (getFocusSessionStatus apiKey respond).1 =
      [builtRequest apiKey "focustime_started_feed" Method.GET [] none] ∧
    (∀ resp x xs,
      respond (builtRequest apiKey "focustime_started_feed" Method.GET [] none) =
        TransportResult.ok resp →
      (200 ≤ resp.status ∧ resp.status < 300) →
      containsSub (lowerString resp.contentType) "application/json" = true →
      resp.json = JValue.jarr (x :: xs) →
      (getFocusSessionStatus apiKey respond).2 =
        Except.ok
          { active := true, latest_session := some x,
            total_sessions := some (xs.length + 1), message := none }) ∧
    (∀ resp,
      respond (builtRequest apiKey "focustime_started_feed" Method.GET [] none) =
        TransportResult.ok resp →
      (200 ≤ resp.status ∧ resp.status < 300) →
      containsSub (lowerString resp.contentType) "application/json" = true →
      resp.json = JValue.jarr [] →
      (getFocusSessionStatus apiKey respond).2 =
        Except.ok
          { active := false, latest_session := none,
            total_sessions := some 0, message := none }) ∧
    (∀ resp,
      respond (builtRequest apiKey "focustime_started_feed" Method.GET [] none) =
        TransportResult.ok resp →
      (200 ≤ resp.status ∧ resp.status < 300) →
      (∀ l, resp.json ≠ JValue.jarr l) →
      (getFocusSessionStatus apiKey respond).2 =
        Except.ok
          { active := false, latest_session := none,
            total_sessions := some 0, message := none }) ∧
    (∀ resp,
      respond (builtRequest apiKey "focustime_started_feed" Method.GET [] none) =
        TransportResult.ok resp →
      ¬(200 ≤ resp.status ∧ resp.status < 300) →
      resp.status = 404 →
      (getFocusSessionStatus apiKey respond).2 =
        Except.ok
          { active := false, latest_session := none, total_sessions := none,
            message := some "No focus session data available" }) ∧
    (∀ resp,
      respond (builtRequest apiKey "focustime_started_feed" Method.GET [] none) =
        TransportResult.ok resp →
      ¬(200 ≤ resp.status ∧ resp.status < 300) →
      resp.status ≠ 404 →
      ∃ e, (getFocusSessionStatus apiKey respond).2 = Except.error e ∧
        e.status_code = some resp.status) ∧
    (∀ m,
      respond (builtRequest apiKey "focustime_started_feed" Method.GET [] none) =
        TransportResult.err m →
      ∃ e, (getFocusSessionStatus apiKey respond).2 = Except.error e ∧
        e.status_code = none) := by
  refine ⟨rfl, ?_, ?_, ?_, ?_, ?_, ?_⟩
  · intro resp x xs hr h2 hct hj
    simp [getFocusSessionStatus, makeRequest, hr, h2, hct, hj]
  · intro resp hr h2 hct hj
    simp [getFocusSessionStatus, makeRequest, hr, h2, hct, hj]
  · intro resp hr h2 hnl
    cases hv : resp.json with
    | jarr l => exact absurd hv (hnl l)
    | jnull => cases hct : containsSub (lowerString resp.contentType) "application/json" <;>
        simp [getFocusSessionStatus, makeRequest, hr, h2, hct, hv]
    | jbool b => cases hct : containsSub (lowerString resp.contentType) "application/json" <;>
        simp [getFocusSessionStatus, makeRequest, hr, h2, hct, hv]
    | jnum q => cases hct : containsSub (lowerString resp.contentType) "application/json" <;>
        simp [getFocusSessionStatus, makeRequest, hr, h2, hct, hv]
    | jstr s => cases hct : containsSub (lowerString resp.contentType) "application/json" <;>
        simp [getFocusSessionStatus, makeRequest, hr, h2, hct, hv]
    | jobj fs => cases hct : containsSub (lowerString resp.contentType) "application/json" <;>
        simp [getFocusSessionStatus, makeRequest, hr, h2, hct, hv]
  · intro resp hr h2 h404
    simp [getFocusSessionStatus, makeRequest, hr, h2, h404]
  · intro resp hr h2 h404
    refine ⟨{ message := "HTTP " ++ toString resp.status ++ " error: " ++ resp.text,
              status_code := some resp.status,
              response_data := some [("response", resp.text)] }, ?_, rfl⟩
    simp [getFocusSessionStatus, makeRequest, hr, h2, h404]
  · intro m hm
    refine ⟨{ message := "Request error: " ++ m, status_code := none,
              response_data := none }, ?_, rfl⟩
    simp [getFocusSessionStatus, makeRequest, hm]

theorem C7_focus_session_status_cases_witness :
    ((getFocusSessionStatus "k"
        (fun _ => TransportResult.ok
          { status := 200, contentType := "application/json", text := "[]",
            json := JValue.jarr [JValue.jnum 1, JValue.jnum 2] })).2 =
      Except.ok
        { active := true, latest_session := some (JValue.jnum 1),
          total_sessions := some 2, message := none }) ∧
    ((getFocusSessionStatus "k"
        (fun _ => TransportResult.ok
          { status := 404, contentType := "text/plain", text := "nf",
            json := JValue.jnull })).2 =
      Except.ok
        { active := false, latest_session := none, total_sessions := none,
          message := some "No focus session data available" }) := by
  constructor
  · exact (C7_focus_session_status_cases "k"
      (fun _ => TransportResult.ok
        { status := 200, contentType := "application/json", text := "[]",
          json := JValue.jarr [JValue.jnum 1, JValue.jnum 2] })).2.1
      _ (JValue.jnum 1) [JValue.jnum 2] rfl (by decide) (by decide) rfl
  · exact (C7_focus_session_status_cases "k"
      (fun _ => TransportResult.ok
        { status := 404, contentType := "text/plain", text := "nf",
          json := JValue.jnull })).2.2.2.2.1 _ rfl (by decide) rfl

/-- C8: the health check never raises; for every transport outcome of the
underlying daily-summary read, the client-level check returns a boolean
(false whenever the read raises, true otherwise) and the facade returns a
structure with that boolean and the caller-visible timestamp. -/
theorem C8_health_check_total (apiKey now : String)
    (respond : OutRequest → TransportResult) :
    (healthCheckTool apiKey respond now).2.timestamp = now ∧
    (healthCheckTool apiKey respond now).2.healthy = (clientHealthCheck apiKey respond).2 ∧
    (∀ resp,
      respond (builtRequest apiKey "daily_summary_feed" Method.GET [] none) =
        TransportResult.ok resp →
      (200 ≤ resp.status ∧ resp.status < 300) →
      (clientHealthCheck apiKey respond).2 = true) ∧
    (∀ resp,
      respond (builtRequest apiKey "daily_summary_feed" Method.GET [] none) =
        TransportResult.ok resp →
      ¬(200 ≤ resp.status ∧ resp.status < 300) →
      (clientHealthCheck apiKey respond).2 = false) ∧
    (∀ m,
      respond (builtRequest apiKey "daily_summary_feed" Method.GET [] none) =
        TransportResult.err m →
      (clientHealthCheck apiKey respond).2 = false) := by
  refine ⟨rfl, rfl, ?_, ?_, ?_⟩
  · intro resp hr h2
    cases hct : containsSub (lowerString resp.contentType) "application/json" <;>
      simp [clientHealthCheck, getDailySummaryFeed, makeRequest, hr, h2, hct]
  · intro resp hr h2
    simp [clientHealthCheck, getDailySummaryFeed, makeRequest, hr, h2]
  · intro m hm
    simp [clientHealthCheck, getDailySummaryFeed, makeRequest, hm]

theorem C8_health_check_total_witness :
    ((healthCheckTool "k"
        (fun _ => TransportResult.ok
          { status := 200, contentType := "application/json", text := "[]",
            json := JValue.jarr [] }) "2026-10-12T00:00:00").2.timestamp =
      "2026-10-12T00:00:00") ∧
    ((clientHealthCheck "k"
        (fun _ => TransportResult.ok
          { status := 200, contentType := "application/json", text := "[]",
            json := JValue.jarr [] })).2 = true) ∧
    ((clientHealthCheck "k"
        (fun _ => TransportResult.ok
          { status := 401, contentType := "text/plain", text := "bad",
            json := JValue.jnull })).2 = false) ∧
    ((clientHealthCheck "k" (fun _ => TransportResult.err "dns")).2 = false) := by
  refine ⟨?_, ?_, ?_, ?_⟩
  · exact (C8_health_check_total "k" "2026-10-12T00:00:00"
      (fun _ => TransportResult.ok
        { status := 200, contentType := "application/json", text := "[]",
          json := JValue.jarr [] })).1
  · exact (C8_health_check_total "k" "t"
      (fun _ => TransportResult.ok
        { status := 200, contentType := "application/json", text := "[]",
          json := JValue.jarr [] })).2.2.1 _ rfl (by decide)
  · exact (C8_health_check_total "k" "t"
      (fun _ => TransportResult.ok
        { status := 401, contentType := "text/plain", text := "bad",
          json := JValue.jnull })).2.2.2.1 _ rfl (by decide)
  · exact (C8_health_check_total "k" "t"
      (fun _ => TransportResult.err "dns")).2.2.2.2 "dns" rfl

/-- Truncation toward zero, the behaviour of Python int() on a number. -/
def pyTrunc (q : ℚ) : Int :=
  if 0 ≤ q then ⌊q⌋ else ⌈q⌉

/-- Round-half-to-even to an integer, the rounding used by Python round(). -/
def roundHalfEven (q : ℚ) : Int :=
  let f := ⌊q⌋
  let r := q - (f : ℚ)
  if r < 1/2 then f
  else if (1:ℚ)/2 < r then f + 1
  else if f % 2 = 0 then f else f + 1

/-- Model of Python round(x, n) on exact rationals. -/
def pyRound (q : ℚ) (n : Nat) : ℚ :=
  ((roundHalfEven (q * (10 ^ n : ℚ)) : ℚ)) / (10 ^ n : ℚ)

/-- Analytic row as consumed by get_productivity_score: time spent in
seconds (index 1 of the raw row) and productivity level (index 5). -/
structure PRow where
  seconds : ℚ
  level : Int

/-- Per-level second accumulators of the get_productivity_score tool
(server.py 630-654). -/
structure ScoreAcc where
  total : ℚ
  productive : ℚ
  distracting : ℚ
  neutral : ℚ
  veryProductive : ℚ
  veryDistracting : ℚ

def scoreAccInit : ScoreAcc := ⟨0, 0, 0, 0, 0, 0⟩

/-- One iteration of the accumulation loop (server.py 637-654): levels 2
and -2 feed two accumulators each, and any level outside -2..2 counts only
toward the total. -/
def scoreStep (acc : ScoreAcc) (r : PRow) : ScoreAcc :=
  let a := { acc with total := acc.total + r.seconds }
  if r.level = 2 then
    { a with veryProductive := a.veryProductive + r.seconds,
             productive := a.productive + r.seconds }
  else if r.level = 1 then { a with productive := a.productive + r.seconds }
  else if r.level = 0 then { a with neutral := a.neutral + r.seconds }
  else if r.level = -1 then { a with distracting := a.distracting + r.seconds }
  else if r.level = -2 then
    { a with veryDistracting := a.veryDistracting + r.seconds,
             distracting := a.distracting + r.seconds }
  else a

def scoreAccOf (rows : List PRow) : ScoreAcc := rows.foldl scoreStep scoreAccInit

/-- Weighted numerator of the productivity pulse exactly as written in
server.py 670-674. -/
def codeNum (a : ScoreAcc) : ℚ :=
  a.veryProductive * 1 + (a.productive - a.veryProductive) * (3/4) +
    a.neutral * (1/2) + (a.distracting - a.veryDistracting) * (1/4) +
    a.veryDistracting * 0

/-- Result record of the get_productivity_score tool (server.py 691-711),
with the time breakdown, percentages and detailed breakdown flattened. -/
structure ProdScoreResult where
  productivity_pulse : Int
  level_description : String
  total_hours : ℚ
  productive_hours : ℚ
  distracting_hours : ℚ
  neutral_hours : ℚ
  productive_percent : ℚ
  distracting_percent : ℚ
  neutral_percent : ℚ
  very_productive_hours : ℚ
  very_distracting_hours : ℚ

/-- Model of the rows-present branch of the get_productivity_score tool
(server.py 626-711), as a function of the fetched analytic rows. -/
def getProductivityScore (rows : List PRow) : ProdScoreResult :=
  let a := scoreAccOf rows
  let productivePercent : ℚ := if 0 < a.total then a.productive / a.total * 100 else 0
  let distractingPercent : ℚ := if 0 < a.total then a.distracting / a.total * 100 else 0
  let neutralPercent : ℚ := if 0 < a.total then a.neutral / a.total * 100 else 0
  let pulse : Int :=
    if 0 < a.total then pyTrunc (codeNum a / a.total * 100) else 0
  let label : String :=
    if 75 ≤ pulse then "Excellent"
    else if 60 ≤ pulse then "Good"
    else if 40 ≤ pulse then "Fair"
    else "Needs Improvement"
  { productivity_pulse := pulse,
    level_description := label,
    total_hours := pyRound (a.total / 3600) 2,
    productive_hours := pyRound (a.productive / 3600) 2,
    distracting_hours := pyRound (a.distracting / 3600) 2,
    neutral_hours := pyRound (a.neutral / 3600) 2,
    productive_percent := pyRound productivePercent 1,
    distracting_percent := pyRound distractingPercent 1,
    neutral_percent := pyRound neutralPercent 1,
    very_productive_hours := pyRound (a.veryProductive / 3600) 2,
    very_distracting_hours := pyRound (a.veryDistracting / 3600) 2 }

/-- Fixed productivity-pulse weights exactly as the specification states
them: 2 maps to 1.0, 1 to 0.75, 0 to 0.5, -1 to 0.25 and -2 to 0.0. -/
def specWeight (l : Int) : ℚ :=
  if l = 2 then 1
  else if l = 1 then 3/4
  else if l = 0 then 1/2
  else if l = -1 then 1/4
  else 0

def totalSeconds (rows : List PRow) : ℚ := (rows.map PRow.seconds).sum

/-- Spec-side weighted sum: each row's seconds weighted by its level. -/
def weightedSeconds (rows : List PRow) : ℚ :=
  (rows.map (fun r => specWeight r.level * r.seconds)).sum

theorem scoreStep_total (a : ScoreAcc) (r : PRow) :
    (scoreStep a r).total = a.total + r.seconds := by
  unfold scoreStep
  split_ifs <;> rfl

theorem scoreStep_codeNum (a : ScoreAcc) (r : PRow)
    (h : -2 ≤ r.level ∧ r.level ≤ 2) :
    codeNum (scoreStep a r) = codeNum a + specWeight r.level * r.seconds := by
  have h5 : r.level = 2 ∨ r.level = 1 ∨ r.level = 0 ∨ r.level = -1 ∨ r.level = -2 := by
    omega
  rcases h5 with h5 | h5 | h5 | h5 | h5 <;>
    simp [scoreStep, codeNum, specWeight, h5] <;> ring

theorem scoreAccFold_total (rows : List PRow) :
    ∀ a, (rows.foldl scoreStep a).total = a.total + totalSeconds rows := by
  induction rows with
  | nil => intro a; simp [totalSeconds]
  | cons r t ih =>
      intro a
      rw [List.foldl_cons, ih, scoreStep_total]
      simp [totalSeconds]
      ring

theorem scoreAccFold_codeNum (rows : List PRow)
    (hval : ∀ x ∈ rows, -2 ≤ x.level ∧ x.level ≤ 2) :
    ∀ a, codeNum (rows.foldl scoreStep a) = codeNum a + weightedSeconds rows := by
  induction rows with
  | nil => intro a; simp [weightedSeconds]
  | cons r t ih =>
      intro a
      have hr := hval r (List.mem_cons_self r t)
      have ht : ∀ x ∈ t, -2 ≤ x.level ∧ x.level ≤ 2 := fun x hx =>
        hval x (List.mem_cons_of_mem r hx)
      rw [List.foldl_cons, ih ht, scoreStep_codeNum a r hr]
      simp [weightedSeconds]
      ring

theorem specWeight_nonneg (l : Int) : 0 ≤ specWeight l := by
  unfold specWeight
  split_ifs <;> norm_num

theorem specWeight_le_one (l : Int) : specWeight l ≤ 1 := by
  unfold specWeight
  split_ifs <;> norm_num

theorem weightedSeconds_nonneg (rows : List PRow)
    (hsec : ∀ r ∈ rows, 0 ≤ r.seconds) : 0 ≤ weightedSeconds rows := by
  apply List.sum_nonneg
  intro x hx
  obtain ⟨r, hr, rfl⟩ := List.mem_map.mp hx
  exact mul_nonneg (specWeight_nonneg r.level) (hsec r hr)

theorem weightedSeconds_le_total (rows : List PRow)
    (hsec : ∀ r ∈ rows, 0 ≤ r.seconds) :
    weightedSeconds rows ≤ totalSeconds rows := by
  apply List.sum_le_sum
  intro r hr
  calc specWeight r.level * r.seconds ≤ 1 * r.seconds :=
        mul_le_mul_of_nonneg_right (specWeight_le_one r.level) (hsec r hr)
    _ = r.seconds := one_mul r.seconds

/-- C4: over well-formed rows with positive total time, the computed pulse
equals the integer truncation of the spec's per-level weighted sum divided
by total seconds and scaled to 100, it lies between 0 and 100, the label is
bucketed at 75, 60 and 40, and on the spec's concrete two-row input the
tool yields one productive hour, one distracting hour and pulse 50. -/
theorem C4_productivity_pulse (rows : List PRow)
    (hlev : ∀ r ∈ rows, -2 ≤ r.level ∧ r.level ≤ 2)
    (hsec : ∀ r ∈ rows, 0 ≤ r.seconds)
    (hpos : 0 < totalSeconds rows) :
    (getProductivityScore rows).productivity_pulse =
      pyTrunc (weightedSeconds rows / totalSeconds rows * 100) ∧
    0 ≤ (getProductivityScore rows).productivity_pulse ∧
    (getProductivityScore rows).productivity_pulse ≤ 100 ∧
    (getProductivityScore rows).level_description =
      (if 75 ≤ (getProductivityScore rows).productivity_pulse then "Excellent"
       else if 60 ≤ (getProductivityScore rows).productivity_pulse then "Good"
       else if 40 ≤ (getProductivityScore rows).productivity_pulse then "Fair"
       else "Needs Improvement") ∧
    (getProductivityScore [⟨3600, 2⟩, ⟨3600, -2⟩]).productive_hours = 1 ∧
    (getProductivityScore [⟨3600, 2⟩, ⟨3600, -2⟩]).distracting_hours = 1 ∧
    (getProductivityScore [⟨3600, 2⟩, ⟨3600, -2⟩]).productivity_pulse = 50 := by
  have ha_total : (scoreAccOf rows).total = totalSeconds rows := by
    rw [scoreAccOf, scoreAccFold_total]
    simp [scoreAccInit]
  have ha_num : codeNum (scoreAccOf rows) = weightedSeconds rows := by
    rw [scoreAccOf, scoreAccFold_codeNum rows hlev]
    norm_num [codeNum, scoreAccInit]
  have hq0 : 0 ≤ weightedSeconds rows / totalSeconds rows * 100 := by
    apply mul_nonneg
    · exact div_nonneg (weightedSeconds_nonneg rows hsec) hpos.le
    · norm_num
  have hq100 : weightedSeconds rows / totalSeconds rows * 100 ≤ 100 := by
    have h1 : weightedSeconds rows / totalSeconds rows ≤ 1 :=
      (div_le_one hpos).mpr (weightedSeconds_le_total rows hsec)
    calc weightedSeconds rows / totalSeconds rows * 100 ≤ 1 * 100 :=
          mul_le_mul_of_nonneg_right h1 (by norm_num)
      _ = 100 := by norm_num
  have hpulse : (getProductivityScore rows).productivity_pulse =
      pyTrunc (weightedSeconds rows / totalSeconds rows * 100) := by
    simp only [getProductivityScore]
    rw [ha_total, ha_num, if_pos hpos]
  refine ⟨hpulse, ?_, ?_, ?_, ?_, ?_, ?_⟩
  · rw [hpulse, pyTrunc, if_pos hq0]
    exact Int.floor_nonneg.mpr hq0
  · rw [hpulse, pyTrunc, if_pos hq0]
    calc ⌊weightedSeconds rows / totalSeconds rows * 100⌋ ≤ ⌊(100 : ℚ)⌋ :=
          Int.floor_le_floor hq100
      _ = 100 := by norm_num
  · simp only [getProductivityScore]
  · norm_num [getProductivityScore, scoreAccOf, scoreStep, scoreAccInit, pyRound,
      roundHalfEven, List.foldl_cons, List.foldl_nil]
  · norm_num [getProductivityScore, scoreAccOf, scoreStep, scoreAccInit, pyRound,
      roundHalfEven, List.foldl_cons, List.foldl_nil]
  · norm_num [getProductivityScore, scoreAccOf, scoreStep, scoreAccInit, codeNum,
      pyTrunc, List.foldl_cons, List.foldl_nil]

theorem C4_productivity_pulse_witness :
    (getProductivityScore [⟨3600, 2⟩, ⟨3600, -2⟩]).productive_hours = 1 ∧
    (getProductivityScore [⟨3600, 2⟩, ⟨3600, -2⟩]).distracting_hours = 1 ∧
    (getProductivityScore [⟨3600, 2⟩, ⟨3600, -2⟩]).productivity_pulse = 50 := by
  have h := C4_productivity_pulse [⟨3600, 2⟩, ⟨3600, -2⟩]
    (by
      intro r hr
      rcases List.mem_cons.mp hr with rfl | hr2
      · exact ⟨by norm_num, by norm_num⟩
      · rcases List.mem_cons.mp hr2 with rfl | hr3
        · exact ⟨by norm_num, by norm_num⟩
        · exact absurd hr3 (List.not_mem_nil r))
    (by
      intro r hr
      rcases List.mem_cons.mp hr with rfl | hr2
      · norm_num
      · rcases List.mem_cons.mp hr2 with rfl | hr3
        · norm_num
        · exact absurd hr3 (List.not_mem_nil r))
    (by norm_num [totalSeconds])
  exact ⟨h.2.2.2.2.1, h.2.2.2.2.2.1, h.2.2.2.2.2.2⟩

/-- C9: when the fetched rows sum to zero total seconds, the guarded
divisions are skipped and the pulse and every percentage are defined and
equal to 0; the operation still returns a well-formed result. -/
theorem C9_zero_total_guarded (rows : List PRow)
    (h : totalSeconds rows = 0) :
    (getProductivityScore rows).productivity_pulse = 0 ∧
    (getProductivityScore rows).productive_percent = 0 ∧
    (getProductivityScore rows).distracting_percent = 0 ∧
    (getProductivityScore rows).neutral_percent = 0 := by
  have ht : (scoreAccOf rows).total = 0 := by
    rw [scoreAccOf, scoreAccFold_total]
    simp [scoreAccInit, h]
  have hnot : ¬(0 < (scoreAccOf rows).total) := by
    rw [ht]
    exact lt_irrefl 0
  have hz : pyRound 0 1 = 0 := by norm_num [pyRound, roundHalfEven]
  refine ⟨?_, ?_, ?_, ?_⟩ <;> simp [getProductivityScore, hnot, hz]

theorem C9_zero_total_guarded_witness :
    totalSeconds ([] : List PRow) = 0 ∧
    ((getProductivityScore ([] : List PRow)).productivity_pulse = 0 ∧
     (getProductivityScore ([] : List PRow)).productive_percent = 0 ∧
     (getProductivityScore ([] : List PRow)).distracting_percent = 0 ∧
     (getProductivityScore ([] : List PRow)).neutral_percent = 0) :=
  ⟨rfl, C9_zero_total_guarded [] rfl⟩

/-- Cell of a raw analytic row: a JSON number or a piece of text. -/
inductive Cell where
  | num : ℚ → Cell
  | str : String → Cell

/-- Distracting-activity record built by get_top_distractions (server.py
564-572). -/
structure Distraction where
  rank : ℚ
  activity : String
  category : String
  time_spent_seconds : ℚ
  time_spent_minutes : ℚ
  productivity_level : ℚ
  distraction_level : String

/-- Construction of one distracting-activity record from the extracted row
cells (server.py 564-572). -/
def mkDistraction (rank secs : ℚ) (act cat : String) (lvl : ℚ) : Distraction :=
  { rank := rank, activity := act, category := cat,
    time_spent_seconds := secs,
    time_spent_minutes := pyRound (secs / 60) 1,
    productivity_level := lvl,
    distraction_level := if lvl = -2 then "Very Distracting" else "Distracting" }

/-- One iteration of the row loop of get_top_distractions (server.py
555-572): rows shorter than six cells are skipped by the length guard, and
a row is kept only when its productivity cell (index 5) is negative. Cells
at the accessed positions are taken in the shapes the API documents (rank,
seconds and productivity numeric, activity and category text); a row
violating those shapes - on which the Python comparison would raise - is
not modelled and falls to the skip case. -/
def rowStep (row : List Cell) : Option Distraction :=
  if 6 ≤ row.length then
    match row with
    | Cell.num rank :: Cell.num secs :: _ :: Cell.str act :: Cell.str cat ::
        Cell.num lvl :: _ =>
        if lvl < 0 then some (mkDistraction rank secs act cat lvl) else none
    | _ => none
  else none

/-- Extraction of the record regardless of the productivity sign, used by
the spec-side pipeline below. -/
def decodeAnyRow (row : List Cell) : Option Distraction :=
  if 6 ≤ row.length then
    match row with
    | Cell.num rank :: Cell.num secs :: _ :: Cell.str act :: Cell.str cat ::
        Cell.num lvl :: _ =>
        some (mkDistraction rank secs act cat lvl)
    | _ => none
  else none

/-- Well-shaped cells at the five accessed positions of a row. -/
def isTypedRow (row : List Cell) : Bool :=
  match row with
  | Cell.num _ :: Cell.num _ :: _ :: Cell.str _ :: Cell.str _ :: Cell.num _ :: _ => true
  | _ => false

/-- Insertion step of the stable descending sort below. -/
def insertDesc (x : Distraction) : List Distraction → List Distraction
  | [] => [x]
  | y :: t =>
      if x.time_spent_seconds < y.time_spent_seconds then y :: insertDesc x t
      else x :: y :: t

/-- Stable sort in descending order of time spent, modelling Python's
list.sort(key=time_spent_seconds, reverse=True): a stable sort's output is
uniquely determined by the key and the original order, so this insertion
sort is a faithful model of the library sort. -/
def sortByTimeDesc : List Distraction → List Distraction
  | [] => []
  | x :: t => insertDesc x (sortByTimeDesc t)

/-- Model of the Python slice l[:limit]: a nonnegative limit takes that
many elements from the front; a negative one drops that many from the end. -/
def pySliceTake {α : Type} (limit : Int) (l : List α) : List α :=
  if 0 ≤ limit then l.take limit.toNat
  else l.take ((l.length : Int) + limit).toNat

/-- Aggregate block of the get_top_distractions response (server.py
585-589), computed over the truncated list. -/
structure DistractionSummary where
  total_activities : Nat
  total_distraction_time_minutes : ℚ
  total_distraction_time_hours : ℚ

structure TopDistractionsResult where
  activities : List Distraction
  summary : DistractionSummary

/-- Model of the row-processing part of the get_top_distractions tool
(server.py 552-590), as a function of the fetched analytic rows and the
caller-supplied limit. -/
def getTopDistractions (rows : List (List Cell)) (limit : Int) :
    TopDistractionsResult :=
  let das := rows.filterMap rowStep
  let sorted := sortByTimeDesc das
  let top := pySliceTake limit sorted
  let total := (top.map Distraction.time_spent_seconds).sum
  { activities := top,
    summary :=
      { total_activities := top.length,
        total_distraction_time_minutes := pyRound (total / 60) 1,
        total_distraction_time_hours := pyRound (total / 3600) 2 } }

/-- Pipeline following the specification's words for the top-distractions
view: decode the analytic rows, keep exactly those whose productivity
score is negative, sort descending by time spent, truncate to the limit. -/
def specTopDistractions (rows : List (List Cell)) (limit : Int) :
    List Distraction :=
  (sortByTimeDesc
    ((rows.filterMap decodeAnyRow).filter
      (fun d => decide (d.productivity_level < 0)))).take limit.toNat

theorem rowStep_eq_filter (row : List Cell) :
    rowStep row =
      Option.filter (fun d => decide (d.productivity_level < 0)) (decodeAnyRow row) := by
  unfold rowStep decodeAnyRow
  split_ifs with h6
  · rcases row with _ | ⟨c0, row⟩
    · rfl
    rcases c0 with q0 | s0
    · rcases row with _ | ⟨c1, row⟩
      · rfl
      rcases c1 with q1 | s1
      · rcases row with _ | ⟨c2, row⟩
        · rfl
        rcases row with _ | ⟨c3, row⟩
        · rfl
        rcases c3 with q3 | s3
        · rfl
        rcases row with _ | ⟨c4, row⟩
        · rfl
        rcases c4 with q4 | s4
        · rfl
        rcases row with _ | ⟨c5, row⟩
        · rfl
        rcases c5 with q5 | s5
        · by_cases hlv : q5 < 0
          · simp [hlv, Option.filter, mkDistraction]
          · simp [hlv, Option.filter, mkDistraction]
        · rfl
      · rfl
    · rfl
  · rfl

theorem rowStep_short (row : List Cell) (h : ¬6 ≤ row.length) :
    rowStep row = none := by
  unfold rowStep
  rw [if_neg h]

theorem filterMap_rowStep_length_filter (rows : List (List Cell)) :
    (rows.filter (fun row => decide (6 ≤ row.length))).filterMap rowStep =
      rows.filterMap rowStep := by
  induction rows with
  | nil => rfl
  | cons r t ih =>
      by_cases h : 6 ≤ r.length
      · simp [List.filter_cons, List.filterMap_cons, h, ih]
      · simp [List.filter_cons, List.filterMap_cons, h, ih, rowStep_short r h]

/-- C5: the top-distractions view keeps exactly the decoded rows whose
productivity score is negative, sorts them stably in descending order of
time spent, truncates to the caller-supplied limit, and reports the
aggregate totals (activity count, minutes, hours) over the truncated list;
in particular, on two distracting rows with limit 1 it returns exactly the
one with the greater time spent. -/
theorem C5_top_distractions_pipeline (rows : List (List Cell)) (limit : Int)
    (hl : 0 ≤ limit) :
    (getTopDistractions rows limit).activities = specTopDistractions rows limit ∧
    (getTopDistractions rows limit).summary.total_activities =
      (getTopDistractions rows limit).activities.length ∧
    (getTopDistractions rows limit).summary.total_distraction_time_minutes =
      pyRound
        (((getTopDistractions rows limit).activities.map
            Distraction.time_spent_seconds).sum / 60) 1 ∧
    (getTopDistractions rows limit).summary.total_distraction_time_hours =
      pyRound
        (((getTopDistractions rows limit).activities.map
            Distraction.time_spent_seconds).sum / 3600) 2 ∧
    getTopDistractions
        [[Cell.num 1, Cell.num 600, Cell.num 2, Cell.str "Site A",
          Cell.str "News", Cell.num (-1)],
         [Cell.num 2, Cell.num 900, Cell.num 1, Cell.str "Site B",
          Cell.str "Social", Cell.num (-2)]] 1 =
      { activities := [mkDistraction 2 900 "Site B" "Social" (-2)],
        summary :=
          { total_activities := 1,
            total_distraction_time_minutes := 15,
            total_distraction_time_hours := 1/4 } } := by
  have hpipe : rows.filterMap rowStep =
      (rows.filterMap decodeAnyRow).filter
        (fun d => decide (d.productivity_level < 0)) := by
    rw [List.filter_filterMap]
    exact List.filterMap_congr (fun row _ => rowStep_eq_filter row)
  refine ⟨?_, rfl, rfl, rfl, ?_⟩
  · simp only [getTopDistractions, specTopDistractions, hpipe, pySliceTake, if_pos hl]
  · norm_num [getTopDistractions, rowStep, mkDistraction, sortByTimeDesc, insertDesc,
      pySliceTake, pyRound, roundHalfEven, List.filterMap_cons]

theorem C5_top_distractions_pipeline_witness :
    (0 : Int) ≤ 1 ∧
    getTopDistractions
        [[Cell.num 1, Cell.num 600, Cell.num 2, Cell.str "Site A",
          Cell.str "News", Cell.num (-1)],
         [Cell.num 2, Cell.num 900, Cell.num 1, Cell.str "Site B",
          Cell.str "Social", Cell.num (-2)]] 1 =
      { activities := [mkDistraction 2 900 "Site B" "Social" (-2)],
        summary :=
          { total_activities := 1,
            total_distraction_time_minutes := 15,
            total_distraction_time_hours := 1/4 } } :=
  ⟨by decide, (C5_top_distractions_pipeline [] 1 (by decide)).2.2.2.2⟩

/-- C10: rows with fewer than six cells are silently skipped: the
top-distractions view neither fails on them nor counts them, and its whole
output on any input equals its output with those rows removed. -/
theorem C10_short_rows_skipped (rows : List (List Cell)) (limit : Int)
    (_hwt : ∀ row ∈ rows, 6 ≤ row.length → isTypedRow row = true) :
    getTopDistractions rows limit =
      getTopDistractions (rows.filter (fun row => decide (6 ≤ row.length))) limit := by
  simp only [getTopDistractions, filterMap_rowStep_length_filter]

theorem C10_short_rows_skipped_witness :
    (∀ row ∈ [[Cell.num 7],
        [Cell.num 2, Cell.num 900, Cell.num 1, Cell.str "Site B",
         Cell.str "Social", Cell.num (-2)]], 6 ≤ row.length → isTypedRow row = true) ∧
    getTopDistractions
        [[Cell.num 7],
         [Cell.num 2, Cell.num 900, Cell.num 1, Cell.str "Site B",
          Cell.str "Social", Cell.num (-2)]] 3 =
      getTopDistractions
        ([[Cell.num 7],
          [Cell.num 2, Cell.num 900, Cell.num 1, Cell.str "Site B",
           Cell.str "Social", Cell.num (-2)]].filter
          (fun row => decide (6 ≤ row.length))) 3 :=
  ⟨by decide, C10_short_rows_skipped _ 3 (by decide)⟩

end RescueTime
